import Mathlib

/-!
Verification of the transaction risk scoring core (`app.py`).

The embedding models the Python values a `pandas` row cell can hold with the
inductive type `Val` (Python `None`, strings, integers, booleans); Python
floats are idealized as exact rationals produced by a decimal-literal parser
(`pyFloatChars`), so non-finite literals (`inf`, `nan`) and binary rounding
are outside the model.  Every definition is translated from `app.py`; the
line numbers in the doc comments refer to that file.
-/

namespace RiskApp

/-- A Python value that can appear in a transaction row field: `None`, a
string, an integer, or a boolean.  (Floats reaching a *string* context are not
modeled; every numeric field is consumed through `to_float`, where a float is
an exact rational.) -/
inductive Val where
  | none
  | str (s : String)
  | int (n : Int)
  | bool (b : Bool)
deriving DecidableEq

/-- Python `str(v)`: `str(None) = "None"`, `str(True) = "True"`,
`str(False) = "False"`, integers print in decimal. -/
def pyStr : Val → String
  | Val.none => "None"
  | Val.str s => s
  | Val.int n => toString n
  | Val.bool b => if b then "True" else "False"

/-- Python `str.strip()` (ASCII whitespace), implemented structurally on the
character data so concrete instances reduce. -/
def pyStrip (s : String) : String :=
  ⟨((s.data.dropWhile Char.isWhitespace).reverse.dropWhile Char.isWhitespace).reverse⟩

/-- Python `str.upper()` restricted to ASCII letters. -/
def pyUpper (s : String) : String := ⟨s.data.map Char.toUpper⟩

/-- Python `str.lower()` restricted to ASCII letters. -/
def pyLower (s : String) : String := ⟨s.data.map Char.toLower⟩

/-- Value of a list of decimal digit characters. -/
def digitsVal (cs : List Char) : Nat :=
  cs.foldl (fun a c => 10 * a + (c.toNat - 48)) 0

/-- Nonempty and all decimal digits. -/
def allDigits (cs : List Char) : Bool :=
  !cs.isEmpty && cs.all (fun c => c.isDigit)

/-- Strip one leading sign character; `true` means negative. -/
def splitSign : List Char → Bool × List Char
  | '-' :: rest => (true, rest)
  | '+' :: rest => (false, rest)
  | cs => (false, cs)

/-- Mantissa of a decimal literal: digits with an optional point, at least one
digit overall (Python accepts `"5."` and `".5"`, rejects `"."`). -/
def parseMantissa (cs : List Char) : Option ℚ :=
  match cs.splitOn '.' with
  | [ip] => if allDigits ip then some ((digitsVal ip : ℚ)) else Option.none
  | [ip, fp] =>
      if ip.all (fun c => c.isDigit) && fp.all (fun c => c.isDigit)
          && (!ip.isEmpty || !fp.isEmpty) then
        some ((digitsVal ip : ℚ) + (digitsVal fp : ℚ) / (10 : ℚ) ^ fp.length)
      else Option.none
  | _ => Option.none

/-- Exponent part: optional sign and digits. -/
def parseExpPart (cs : List Char) : Option Int :=
  match splitSign cs with
  | (neg, ds) =>
      if allDigits ds then
        some (if neg then -(digitsVal ds : Int) else (digitsVal ds : Int))
      else Option.none

/-- Python `float(s)` on ordinary decimal literals: optional sign, digits with
optional fractional part, optional exponent (`e`/`E`).  Values are exact
rationals; `inf`/`nan`/underscored literals are not modeled. -/
def pyFloatChars (cs0 : List Char) : Option ℚ :=
  let cs := cs0.map Char.toLower
  match splitSign cs with
  | (neg, body) =>
    let signed : ℚ → ℚ := fun q => if neg then -q else q
    match body.splitOn 'e' with
    | [m] => (parseMantissa m).map signed
    | [m, e] =>
        match parseMantissa m, parseExpPart e with
        | some q, some ex => some (signed (q * (10 : ℚ) ^ ex))
        | _, _ => Option.none
    | _ => Option.none

/-- Lines 156-162 of `app.py`: `to_float` returns `None` for Python `None`,
for empty/whitespace-only strings, and for failed conversions; otherwise the
numeric value.  (`float()` itself ignores surrounding whitespace, so parsing
the trimmed string is equivalent.) -/
def to_float : Val → Option ℚ
  | Val.none => Option.none
  | Val.int n => some ((n : ℚ))
  | Val.bool b => some (if b then 1 else 0)
  | Val.str s => if pyStrip s = "" then Option.none else pyFloatChars (pyStrip s).data

/-- Lines 43-46: `HIGH_RISK_COUNTRIES`. -/
def HIGH_RISK_COUNTRIES : List String :=
  ["IR", "KP", "SY", "CU", "RU", "UA", "AF", "IQ", "YE", "SO", "SD", "CD"]

/-- Lines 48-51: `RISKY_MERCHANT_CATS`. -/
def RISKY_MERCHANT_CATS : List String :=
  ["gambling", "crypto", "virtual_goods", "adult", "gift_cards"]

/-- Lines 53-64: `KYC_TIER_SCORES`, in declaration order. -/
def KYC_TIER_SCORES : List (String × Int) :=
  [("tier_1", 10), ("basic", 10), ("lite", 10), ("tier_2", 5),
   ("standard", 5), ("tier_3", 0), ("enhanced", 0), ("full", 0)]

/-- Line 107: `KYC_TIER_SCORES.get(tier_raw, 5)`. -/
def kycLookup (t : String) : Int :=
  match KYC_TIER_SCORES.find? (fun p => p.1 == t) with
  | some p => p.2
  | Option.none => 5

/-- Lines 66-70: `CATEGORY_RULES` as `(name, lo, hi)` in declaration order
(Python dicts preserve insertion order). -/
def CATEGORY_RULES : List (String × Int × Int) :=
  [("Low", 0, 39), ("Medium", 40, 69), ("High", 70, 100)]

/-- The transaction row fields read by `score_transaction`.  All 14 input
columns exist after validation; the three fields the scorer never reads
(`txn_id`, `timestamp`, `channel`) are omitted.  A present-but-null cell is
`Val.none`; `row.get(key, default)` defaults are unreachable once the column
exists, and each reachable default is representable (`0 ↦ Val.int 0`,
`"" ↦ Val.str ""`, `None ↦ Val.none`). -/
structure Row where
  sender_country : Val
  receiver_country : Val
  amount_usd : Val
  customer_age_days : Val
  prior_txn_24h : Val
  sanctioned_party_flag : Val
  kyc_tier : Val
  merchant_category : Val
  velocity_1h : Val
  velocity_24h : Val
  device_change_flag : Val

/-- Lines 81-82: `str(row.get("sanctioned_party_flag", 0)).strip()` tested
against the set `{"1", "true", "True", "TRUE"}`.  The clause
`sanctioned == 1` compares a `str` with an `int`, which is always `False` in
Python, so it contributes nothing. -/
def sanctionedTruthy (v : Val) : Bool :=
  let s := pyStrip (pyStr v)
  (s == "1" || s == "true" || s == "True" || s == "TRUE") || false

/-- Lines 129-130: the device-change flag check, textually duplicating the
sanctions check (same truthy set, same dead `== 1` clause). -/
def deviceTruthy (v : Val) : Bool :=
  let s := pyStrip (pyStr v)
  (s == "1" || s == "true" || s == "True" || s == "TRUE") || false

/-- Lines 76-153: `score_transaction`, translated block by block as the
sequential accumulation in the source.  `int(round(score))` on line 152 is
the identity because `score` is an `int` at that point. -/
def score_transaction (r : Row) : Int :=
  -- 0) sanctions hard stop (lines 80-83)
  if sanctionedTruthy r.sanctioned_party_flag then 100
  else
    let score : Int := 10
    -- 1) amount (lines 85-95)
    let score := score + (match to_float r.amount_usd with
      | some amt =>
          if amt > 10000 then 20 else if amt > 5000 then 15
          else if amt > 1000 then 10 else 0
      | Option.none => 0)
    -- 2) country corridor risk (lines 97-103)
    let sc := pyUpper (pyStr r.sender_country)
    let rc := pyUpper (pyStr r.receiver_country)
    let score := score + (if sc ≠ "" ∧ rc ≠ "" ∧ sc ≠ rc then 5 else 0)
    let score := score +
      (if sc ∈ HIGH_RISK_COUNTRIES ∨ rc ∈ HIGH_RISK_COUNTRIES then 15 else 0)
    -- 3) KYC tier (lines 105-107)
    let score := score + kycLookup (pyStrip (pyLower (pyStr r.kyc_tier)))
    -- 4) velocity (lines 109-121)
    let score := score + (match to_float r.velocity_1h with
      | some v1h => if v1h > 5 then 15 else if v1h > 2 then 8 else 0
      | Option.none => 0)
    let score := score + (match to_float r.velocity_24h with
      | some v24h => if v24h > 20 then 10 else if v24h > 10 then 5 else 0
      | Option.none => 0)
    -- 5) merchant category (lines 123-126)
    let score := score +
      (if pyStrip (pyLower (pyStr r.merchant_category)) ∈ RISKY_MERCHANT_CATS then 10 else 0)
    -- 6) device change (lines 128-131)
    let score := score + (if deviceTruthy r.device_change_flag then 10 else 0)
    -- 7) account age (lines 133-141)
    let score := score + (match to_float r.customer_age_days with
      | some age =>
          if age < 30 then 15 else if age < 90 then 10
          else if age < 365 then 5 else 0
      | Option.none => 0)
    -- 8) prior txn in 24h (lines 143-149)
    let score := score + (match to_float r.prior_txn_24h with
      | some p24 => if p24 > 10 then 10 else if p24 > 3 then 5 else 0
      | Option.none => 0)
    -- cap at [0, 100] (line 152)
    max 0 (min 100 score)

/-- Amount-rule contribution (lines 85-95), as a standalone term of the
additive total. -/
def amountPoints (v : Val) : Int :=
  match to_float v with
  | some amt =>
      if amt > 10000 then 20 else if amt > 5000 then 15
      else if amt > 1000 then 10 else 0
  | Option.none => 0

/-- Corridor-rule contribution (lines 97-103). -/
def corridorPoints (sv rv : Val) : Int :=
  let sc := pyUpper (pyStr sv)
  let rc := pyUpper (pyStr rv)
  (if sc ≠ "" ∧ rc ≠ "" ∧ sc ≠ rc then 5 else 0) +
  (if sc ∈ HIGH_RISK_COUNTRIES ∨ rc ∈ HIGH_RISK_COUNTRIES then 15 else 0)

/-- KYC-rule contribution (lines 105-107). -/
def kycPoints (v : Val) : Int := kycLookup (pyStrip (pyLower (pyStr v)))

/-- 1-hour velocity contribution (lines 112-116). -/
def velocity1hPoints (v : Val) : Int :=
  match to_float v with
  | some v1h => if v1h > 5 then 15 else if v1h > 2 then 8 else 0
  | Option.none => 0

/-- 24-hour velocity contribution (lines 117-121). -/
def velocity24hPoints (v : Val) : Int :=
  match to_float v with
  | some v24h => if v24h > 20 then 10 else if v24h > 10 then 5 else 0
  | Option.none => 0

/-- Merchant-category contribution (lines 123-126). -/
def merchantPoints (v : Val) : Int :=
  if pyStrip (pyLower (pyStr v)) ∈ RISKY_MERCHANT_CATS then 10 else 0

/-- Device-change contribution (lines 128-131). -/
def devicePoints (v : Val) : Int :=
  if deviceTruthy v then 10 else 0

/-- Account-age contribution (lines 133-141). -/
def agePoints (v : Val) : Int :=
  match to_float v with
  | some age =>
      if age < 30 then 15 else if age < 90 then 10
      else if age < 365 then 5 else 0
  | Option.none => 0

/-- Prior-24h-burst contribution (lines 143-149). -/
def priorPoints (v : Val) : Int :=
  match to_float v with
  | some p24 => if p24 > 10 then 10 else if p24 > 3 then 5 else 0
  | Option.none => 0

/-- The additive rule total of the spec (base 10 plus the nine independent
rule contributions), before the clamp and without the sanctions
short-circuit. -/
def additive_total (r : Row) : Int :=
  10 + amountPoints r.amount_usd
     + corridorPoints r.sender_country r.receiver_country
     + kycPoints r.kyc_tier
     + velocity1hPoints r.velocity_1h
     + velocity24hPoints r.velocity_24h
     + merchantPoints r.merchant_category
     + devicePoints r.device_change_flag
     + agePoints r.customer_age_days
     + priorPoints r.prior_txn_24h

/-- Lines 165-169: `categorize`, iterating the category ranges in declaration
order, falling back to `"Low"`. -/
def categorizeAux : List (String × Int × Int) → Int → String
  | [], _ => "Low"
  | (name, lo, hi) :: rest, s =>
      if lo ≤ s ∧ s ≤ hi then name else categorizeAux rest s

/-- Line 165: `categorize(score)` over the configured `CATEGORY_RULES`. -/
def categorize (s : Int) : String := categorizeAux CATEGORY_RULES s

/-- One row of the scored frame: original position, `risk_score`,
`risk_category` (lines 216-218). -/
structure SRow where
  idx : Nat
  score : Int
  cat : String
deriving DecidableEq

/-- Lines 216-218: score and categorize every record, keeping the original
frame position as `idx`. -/
def scoreBatch (rows : List Row) : List SRow :=
  rows.enum.map (fun p =>
    { idx := p.1, score := score_transaction p.2,
      cat := categorize (score_transaction p.2) })

/-- Line 246: `sort_values(["risk_category", "risk_score"],
ascending=[True, False])`.  The multi-column sort is a stable lexsort; on the
position-indexed frame (strictly increasing `idx`) stability is equivalent to
the explicit `idx` tiebreak used here. -/
def pipelineLe (a b : SRow) : Bool :=
  decide (a.cat < b.cat) ||
    (a.cat == b.cat &&
      (decide (b.score < a.score) || (a.score == b.score && decide (a.idx ≤ b.idx))))

/-- Lines 245-249: sort the scored frame, keep the `"High"` rows, truncate to
20. -/
def top_high (rows : List Row) : List SRow :=
  (((scoreBatch rows).mergeSort pipelineLe).filter (fun r => r.cat == "High")).take 20

/-- Ordering stated by the spec for the top-N selection: descending
`risk_score`, ties broken by the deterministic secondary key (original
position). -/
def highLe (a b : SRow) : Bool :=
  decide (b.score < a.score) || (a.score == b.score && decide (a.idx ≤ b.idx))

/-- The spec's description of the top-N selection: exactly the `"High"` rows,
ordered by descending score with the positional tiebreak, truncated to 20. -/
def specTopHigh (rows : List Row) : List SRow :=
  (((scoreBatch rows).filter (fun r => r.cat == "High")).mergeSort highLe).take 20

/-- Pandas `Series.mean()`: `NaN` on an empty series (modeled as
`Option.none`), otherwise the arithmetic mean. -/
def meanScore (scores : List Int) : Option ℚ :=
  if scores = [] then Option.none
  else some (((scores.sum : Int) : ℚ) / (scores.length : ℚ))

/-- Line 281: the corridor grouping key
`upper(str(sender)) + ">" + upper(str(receiver))`. -/
def corridorKey (r : Row) : String :=
  pyUpper (pyStr r.sender_country) ++ ">" ++ pyUpper (pyStr r.receiver_country)

/-- Count-descending order on `(key, count)` pairs with the ascending-key
tiebreak inherited from the groupby key order. -/
def countLe (a b : String × Nat) : Bool :=
  decide (b.2 < a.2) || (a.2 == b.2 && decide (a.1 ≤ b.1))

/-- Group a list of keys into `(key, count)` pairs, sorted by descending count
(key-ascending on ties), as `groupby(...).size().sort_values(ascending=False)`
and `value_counts()` produce. -/
def groupCounts (keys : List String) : List (String × Nat) :=
  (keys.dedup.map (fun k => (k, keys.count k))).mergeSort countLe

/-- Lines 280-283: the top-3 corridors by volume. -/
def topCorridors (rows : List Row) : List (String × Nat) :=
  (groupCounts (rows.map corridorKey)).take 3

/-- Lines 285-288: counts of the lowercased merchant categories that are in
the risky set, truncated to 5. -/
def riskyMccCounts (rows : List Row) : List (String × Nat) :=
  (groupCounts ((rows.filter
      (fun r => pyLower (pyStr r.merchant_category) ∈ RISKY_MERCHANT_CATS)).map
    (fun r => pyLower (pyStr r.merchant_category)))).take 5

/-- The batch summary surfaced by the app: total count (line 225), mean risk
score (line 231), top-20 high-risk rows (lines 245-249), corridor and risky
merchant-category breakdowns (lines 280-288). -/
structure BatchSummary where
  total : Nat
  meanRisk : Option ℚ
  topRecords : List SRow
  corridors : List (String × Nat)
  riskyMcc : List (String × Nat)
deriving DecidableEq

/-- Assemble the `BatchSummary` for a batch of rows. -/
def makeSummary (rows : List Row) : BatchSummary :=
  { total := (scoreBatch rows).length
    meanRisk := meanScore ((scoreBatch rows).map (fun r => r.score))
    topRecords := top_high rows
    corridors := topCorridors rows
    riskyMcc := riskyMccCounts rows }

/-- Lines 189-193: the 14 required column names. -/
def required_cols : List String :=
  ["txn_id", "timestamp", "sender_country", "receiver_country", "amount_usd",
   "channel", "customer_age_days", "prior_txn_24h", "sanctioned_party_flag",
   "kyc_tier", "merchant_category", "velocity_1h", "velocity_24h",
   "device_change_flag"]

/-- Line 208: `[c for c in required_cols if c not in df.columns]`. -/
def missingCols (cols : List String) : List String :=
  required_cols.filter (fun c => ¬ cols.contains c)

/-- Lines 207-218: validate then score.  `st.error` + `st.stop()` on missing
columns halts the script before any scoring, modeled as `Except.error`. -/
def runPipeline (cols : List String) (rows : List Row) :
    Except (List String) (List SRow) :=
  if missingCols cols ≠ [] then Except.error (missingCols cols)
  else Except.ok (scoreBatch rows)

/-- Strict total key order on scored rows: score descending, then original
position, then category name; used to compare the two sorted presentations of
the high-risk selection. -/
def keyRel (a b : SRow) : Prop :=
  b.score < a.score ∨
    (a.score = b.score ∧ (a.idx < b.idx ∨ (a.idx = b.idx ∧ a.cat ≤ b.cat)))

/-- A row with every field null, scoring base 10 plus the unknown-KYC default
5. -/
def rowAllNone : Row :=
  { sender_country := Val.none, receiver_country := Val.none,
    amount_usd := Val.none, customer_age_days := Val.none,
    prior_txn_24h := Val.none, sanctioned_party_flag := Val.none,
    kyc_tier := Val.none, merchant_category := Val.none,
    velocity_1h := Val.none, velocity_24h := Val.none,
    device_change_flag := Val.none }

/-- A sanctioned record with every other field null. -/
def sancRow : Row := { rowAllNone with sanctioned_party_flag := Val.str "1" }

/-- A sanctioned record whose other fields all take their maximal-risk
values. -/
def advRow : Row :=
  { sender_country := Val.str "IR", receiver_country := Val.str "KP",
    amount_usd := Val.str "999999999", customer_age_days := Val.str "1",
    prior_txn_24h := Val.str "1000", sanctioned_party_flag := Val.str " true ",
    kyc_tier := Val.str "tier_1", merchant_category := Val.str "gambling",
    velocity_1h := Val.str "99", velocity_24h := Val.str "99",
    device_change_flag := Val.str "1" }

/-!  Theorems.  -/

/-- Structural characterization of `score_transaction`: the sequential
accumulation is the clamp of the additive total unless the sanctions
short-circuit fires. -/
theorem score_transaction_eq (r : Row) :
    score_transaction r =
      if sanctionedTruthy r.sanctioned_party_flag then 100
      else max 0 (min 100 (additive_total r)) := by
  unfold score_transaction additive_total amountPoints corridorPoints kycPoints
    velocity1hPoints velocity24hPoints merchantPoints devicePoints agePoints
    priorPoints
  split
  · rfl
  · dsimp only
    omega

/-- C1: a record whose sanctioned-party flag parses truthy scores exactly 100,
whatever every other field holds — the sanctions check is the first rule
evaluated and short-circuits all the others. -/
theorem sanctions_short_circuit_dominates (r : Row)
    (h : sanctionedTruthy r.sanctioned_party_flag = true) :
    score_transaction r = 100 := by
  unfold score_transaction
  rw [h]
  simp

/-- Witness for C1: a sanctioned record whose other fields all take
maximal-risk adversarial values still scores exactly 100. -/
theorem sanctions_short_circuit_dominates_witness :
    sanctionedTruthy advRow.sanctioned_party_flag = true
      ∧ score_transaction advRow = 100 :=
  ⟨by decide, sanctions_short_circuit_dominates advRow (by decide)⟩

/-- C4 counterexample: the string "tRue" equals "true" case-insensitively but
both flag parsers treat it as false, so the truthy set is not the full
case-insensitive "true". -/
theorem flag_parsing_counterexample :
    pyLower (pyStr (Val.str "tRue")) = "true"
      ∧ sanctionedTruthy (Val.str "tRue") = false
      ∧ deviceTruthy (Val.str "tRue") = false := by
  refine ⟨?_, ?_, ?_⟩ <;> decide

/-- C4 (amended): both flags use the same parsing, and the truthy values are
exactly those whose Python string form, after stripping, is one of "1",
"true", "True", "TRUE" (numeric 1 renders as "1"); every other value,
unparseable ones included, is false. -/
theorem flag_truthy_exact (v : Val) :
    sanctionedTruthy v = deviceTruthy v
      ∧ (sanctionedTruthy v = true ↔
          pyStrip (pyStr v) ∈ (["1", "true", "True", "TRUE"] : List String)) := by
  refine ⟨rfl, ?_⟩
  simp only [sanctionedTruthy, List.mem_cons, List.not_mem_nil, or_false,
    Bool.or_eq_true, beq_iff_eq]
  tauto

/-- C2 counterexample: a sanctioned record returns 100 straight from the
short-circuit, which differs from the clamp of its additive rule total (15
here), so the clamp formula does not describe every record. -/
theorem clamp_formula_counterexample :
    score_transaction sancRow = 100
      ∧ max 0 (min 100 (additive_total sancRow)) = 15 := by
  exact ⟨by decide, by decide⟩

/-- C2 (amended): every score lies in [0, 100]; whenever the sanctions
short-circuit does not fire, the score equals max(0, min(100, round(total)))
of the additive rule total (an integer total, so rounding is the
identity). -/
theorem score_clamped (r : Row) :
    (0 ≤ score_transaction r ∧ score_transaction r ≤ 100)
      ∧ (sanctionedTruthy r.sanctioned_party_flag = false →
          score_transaction r = max 0 (min 100 (additive_total r))) := by
  have he := score_transaction_eq r
  constructor
  · rw [he]
    split
    · omega
    · omega
  · intro h
    rw [he, h]
    simp

/-- Witness for C2 at the all-null record, whose sanctions flag is not
truthy. -/
theorem score_clamped_witness :
    sanctionedTruthy rowAllNone.sanctioned_party_flag = false
      ∧ score_transaction rowAllNone = max 0 (min 100 (additive_total rowAllNone)) :=
  ⟨by decide, (score_clamped rowAllNone).2 (by decide)⟩

/-- For any rules list, `categorizeAux` returns the name of the first range
containing the score, with fallback "Low". -/
theorem categorizeAux_eq_find (rules : List (String × Int × Int)) (s : Int) :
    categorizeAux rules s =
      match rules.find? (fun p => decide (p.2.1 ≤ s ∧ s ≤ p.2.2)) with
      | some p => p.1
      | Option.none => "Low" := by
  induction rules with
  | nil => rfl
  | cons hd tl ih =>
    obtain ⟨name, lo, hi⟩ := hd
    by_cases h : lo ≤ s ∧ s ≤ hi
    · rw [List.find?_cons_of_pos _ (by simpa using h)]
      simp only [categorizeAux, if_pos h]
    · rw [List.find?_cons_of_neg _ (by simpa using h)]
      simp only [categorizeAux, if_neg h]
      exact ih

/-- C3: `categorize` checks the configured ranges in declaration order and
returns the name of the first range containing the score, with fallback
"Low"; every score in 0..100 yields one of the configured category names. -/
theorem categorize_first_match (s : Int) :
    (categorize s =
      match CATEGORY_RULES.find? (fun p => decide (p.2.1 ≤ s ∧ s ≤ p.2.2)) with
      | some p => p.1
      | Option.none => "Low")
      ∧ (0 ≤ s → s ≤ 100 → categorize s ∈ CATEGORY_RULES.map Prod.fst) := by
  constructor
  · exact categorizeAux_eq_find CATEGORY_RULES s
  · intro h0 h100
    simp only [categorize, CATEGORY_RULES, categorizeAux]
    split_ifs <;> simp [CATEGORY_RULES]

/-- Witness for C3 at score 85 (the "High" range). -/
theorem categorize_first_match_witness :
    (0 : Int) ≤ 85 ∧ (85 : Int) ≤ 100
      ∧ categorize 85 ∈ CATEGORY_RULES.map Prod.fst :=
  ⟨by decide, by decide, (categorize_first_match 85).2 (by decide) (by decide)⟩

/-- C9: when any required column is missing, the pipeline rejects the whole
input with a validation error before scoring and produces no scored
output. -/
theorem missing_columns_reject (cols : List String) (rows : List Row)
    (h : missingCols cols ≠ []) :
    runPipeline cols rows = Except.error (missingCols cols)
      ∧ ∀ out, runPipeline cols rows ≠ Except.ok out := by
  refine ⟨?_, ?_⟩
  · simp [runPipeline, h]
  · intro out
    simp [runPipeline, h]

/-- Witness for C9: dropping `amount_usd` from the column set is rejected. -/
theorem missing_columns_reject_witness :
    missingCols (required_cols.erase "amount_usd") ≠ []
      ∧ runPipeline (required_cols.erase "amount_usd") []
          = Except.error (missingCols (required_cols.erase "amount_usd")) :=
  ⟨by decide, (missing_columns_reject (required_cols.erase "amount_usd") [] (by decide)).1⟩

/-- The amount tier contributes between 0 and 20 points. -/
theorem amountPoints_bounds (v : Val) : 0 ≤ amountPoints v ∧ amountPoints v ≤ 20 := by
  unfold amountPoints
  cases to_float v
  · simp
  · dsimp only
    split_ifs <;> omega

/-- The corridor rule contributes between 0 and 20 points. -/
theorem corridorPoints_bounds (sv rv : Val) :
    0 ≤ corridorPoints sv rv ∧ corridorPoints sv rv ≤ 20 := by
  unfold corridorPoints
  dsimp only
  split_ifs <;> omega

/-- Every KYC lookup result, the unknown-tier default of 5 included, lies in
[0, 10]. -/
theorem kycLookup_bounds (t : String) : 0 ≤ kycLookup t ∧ kycLookup t ≤ 10 := by
  unfold kycLookup
  cases hf : KYC_TIER_SCORES.find? (fun p => p.1 == t) with
  | none => simp
  | some p =>
    have hm := List.mem_of_find?_eq_some hf
    simp only [KYC_TIER_SCORES, List.mem_cons, List.not_mem_nil, or_false] at hm
    rcases hm with h | h | h | h | h | h | h | h <;> subst h <;> simp

/-- The 1-hour velocity rule contributes between 0 and 15 points. -/
theorem velocity1hPoints_bounds (v : Val) :
    0 ≤ velocity1hPoints v ∧ velocity1hPoints v ≤ 15 := by
  unfold velocity1hPoints
  cases to_float v
  · simp
  · dsimp only
    split_ifs <;> omega

/-- The 24-hour velocity rule contributes between 0 and 10 points. -/
theorem velocity24hPoints_bounds (v : Val) :
    0 ≤ velocity24hPoints v ∧ velocity24hPoints v ≤ 10 := by
  unfold velocity24hPoints
  cases to_float v
  · simp
  · dsimp only
    split_ifs <;> omega

/-- The merchant-category rule contributes 0 or 10 points. -/
theorem merchantPoints_bounds (v : Val) :
    0 ≤ merchantPoints v ∧ merchantPoints v ≤ 10 := by
  unfold merchantPoints
  split_ifs <;> omega

/-- The device-change rule contributes 0 or 10 points. -/
theorem devicePoints_bounds (v : Val) : 0 ≤ devicePoints v ∧ devicePoints v ≤ 10 := by
  unfold devicePoints
  split_ifs <;> omega

/-- The account-age rule contributes between 0 and 15 points. -/
theorem agePoints_bounds (v : Val) : 0 ≤ agePoints v ∧ agePoints v ≤ 15 := by
  unfold agePoints
  cases to_float v
  · simp
  · dsimp only
    split_ifs <;> omega

/-- The prior-24h-burst rule contributes between 0 and 10 points. -/
theorem priorPoints_bounds (v : Val) : 0 ≤ priorPoints v ∧ priorPoints v ≤ 10 := by
  unfold priorPoints
  cases to_float v
  · simp
  · dsimp only
    split_ifs <;> omega

/-- The additive total is at least the base 10 (every contribution is
nonnegative) and at most 130. -/
theorem additive_total_bounds (r : Row) :
    10 ≤ additive_total r ∧ additive_total r ≤ 130 := by
  have h1 := amountPoints_bounds r.amount_usd
  have h2 := corridorPoints_bounds r.sender_country r.receiver_country
  have h3 := kycLookup_bounds (pyStrip (pyLower (pyStr r.kyc_tier)))
  have h4 := velocity1hPoints_bounds r.velocity_1h
  have h5 := velocity24hPoints_bounds r.velocity_24h
  have h6 := merchantPoints_bounds r.merchant_category
  have h7 := devicePoints_bounds r.device_change_flag
  have h8 := agePoints_bounds r.customer_age_days
  have h9 := priorPoints_bounds r.prior_txn_24h
  unfold additive_total kycPoints
  omega

/-- C10: the base score of 10 plus only-nonnegative rule contributions
(including the unknown-KYC default of 5) means the lower clamp bound is never
reached: every score, the sanctions 100 included, lies in [10, 100]. -/
theorem score_range_ten_to_hundred (r : Row) :
    10 ≤ score_transaction r ∧ score_transaction r ≤ 100 := by
  have hb := additive_total_bounds r
  rw [score_transaction_eq r]
  split
  · omega
  · omega

/-- The null value fails numeric conversion. -/
theorem to_float_none : to_float Val.none = Option.none := rfl

/-- C7: a numeric field whose value fails `to_float` (None, blank, or
unparseable) contributes zero at its rule step, and the record scores exactly
as if the field took the zero-contribution (absent) branch; the scorer is a
total function, so no error can be raised. -/
theorem absent_numeric_neutral (r : Row) (v : Val) (h : to_float v = Option.none) :
    amountPoints v = 0 ∧ velocity1hPoints v = 0 ∧ velocity24hPoints v = 0
      ∧ agePoints v = 0 ∧ priorPoints v = 0
      ∧ score_transaction { r with amount_usd := v }
          = score_transaction { r with amount_usd := Val.none }
      ∧ score_transaction { r with velocity_1h := v }
          = score_transaction { r with velocity_1h := Val.none }
      ∧ score_transaction { r with velocity_24h := v }
          = score_transaction { r with velocity_24h := Val.none }
      ∧ score_transaction { r with customer_age_days := v }
          = score_transaction { r with customer_age_days := Val.none }
      ∧ score_transaction { r with prior_txn_24h := v }
          = score_transaction { r with prior_txn_24h := Val.none } := by
  refine ⟨?_, ?_, ?_, ?_, ?_, ?_, ?_, ?_, ?_, ?_⟩ <;>
    simp [amountPoints, velocity1hPoints, velocity24hPoints, agePoints,
      priorPoints, score_transaction, h, to_float_none]

/-- Witness for C7: the unparseable amount "12,5" scores like a null
amount. -/
theorem absent_numeric_neutral_witness :
    to_float (Val.str "12,5") = Option.none
      ∧ score_transaction { rowAllNone with amount_usd := Val.str "12,5" }
          = score_transaction { rowAllNone with amount_usd := Val.none } :=
  ⟨by decide,
    (absent_numeric_neutral rowAllNone (Val.str "12,5") (by decide)).2.2.2.2.2.1⟩

/-- C8: on a non-sanctioned record, replacing the amount by a larger parseable
amount never lowers the score: the amount tier is monotone and the clamp
preserves order. -/
theorem amount_monotone (r : Row) (v1 v2 : Val) (q1 q2 : ℚ)
    (hs : sanctionedTruthy r.sanctioned_party_flag = false)
    (h1 : to_float v1 = some q1) (h2 : to_float v2 = some q2) (h12 : q1 < q2) :
    score_transaction { r with amount_usd := v1 }
      ≤ score_transaction { r with amount_usd := v2 } := by
  have hm : amountPoints v1 ≤ amountPoints v2 := by
    unfold amountPoints
    rw [h1, h2]
    dsimp only
    split_ifs <;> first | omega | linarith
  rw [score_transaction_eq, score_transaction_eq]
  simp only [hs, if_false, Bool.false_eq_true]
  unfold additive_total
  dsimp only
  omega

/-- Witness for C8: amount 0 versus amount 1 on the all-null record. -/
theorem amount_monotone_witness :
    sanctionedTruthy rowAllNone.sanctioned_party_flag = false
      ∧ score_transaction { rowAllNone with amount_usd := Val.bool false }
          ≤ score_transaction { rowAllNone with amount_usd := Val.bool true } :=
  ⟨by decide,
    amount_monotone rowAllNone (Val.bool false) (Val.bool true) 0 1
      (by decide) rfl rfl zero_lt_one⟩

/-- C5 counterexample: on the empty batch the reported mean is the pandas
mean of an empty series — NaN, modeled `Option.none` — and in particular it is
not 0. -/
theorem empty_batch_mean_counterexample :
    (makeSummary []).meanRisk = Option.none
      ∧ (makeSummary []).meanRisk ≠ some 0 := by
  constructor
  · simp [makeSummary, meanScore, scoreBatch]
  · simp [makeSummary, meanScore, scoreBatch]

/-- C5 (amended): the empty batch produces total 0, empty top-N and empty
breakdowns, and a NaN mean (`Option.none`) rather than 0. -/
theorem empty_batch_summary :
    makeSummary [] =
      { total := 0, meanRisk := Option.none, topRecords := [],
        corridors := [], riskyMcc := [] } := by
  simp [makeSummary, meanScore, scoreBatch, top_high, topCorridors,
    riskyMccCounts, groupCounts]

/-- Unfolding of the Bool comparator for the pipeline sort. -/
theorem pipelineLe_iff (a b : SRow) :
    pipelineLe a b = true ↔
      (a.cat < b.cat ∨
        (a.cat = b.cat ∧
          (b.score < a.score ∨ (a.score = b.score ∧ a.idx ≤ b.idx)))) := by
  simp [pipelineLe, Bool.or_eq_true, Bool.and_eq_true, decide_eq_true_eq,
    beq_iff_eq]

/-- Unfolding of the Bool comparator for the spec-side sort. -/
theorem highLe_iff (a b : SRow) :
    highLe a b = true ↔
      (b.score < a.score ∨ (a.score = b.score ∧ a.idx ≤ b.idx)) := by
  simp [highLe, Bool.or_eq_true, Bool.and_eq_true, decide_eq_true_eq,
    beq_iff_eq]

/-- The pipeline comparator is transitive. -/
theorem pipelineLe_trans (a b c : SRow) (h1 : pipelineLe a b) (h2 : pipelineLe b c) :
    pipelineLe a c := by
  rw [pipelineLe_iff] at *
  rcases h1 with h1 | ⟨e1, h1⟩ <;> rcases h2 with h2 | ⟨e2, h2⟩
  · exact Or.inl (lt_trans h1 h2)
  · exact Or.inl (e2 ▸ h1)
  · exact Or.inl (e1 ▸ h2)
  · right
    refine ⟨e1.trans e2, ?_⟩
    rcases h1 with h1 | ⟨s1, i1⟩ <;> rcases h2 with h2 | ⟨s2, i2⟩ <;> omega

/-- The pipeline comparator is total. -/
theorem pipelineLe_total (a b : SRow) : pipelineLe a b || pipelineLe b a := by
  rw [Bool.or_eq_true, pipelineLe_iff, pipelineLe_iff]
  rcases lt_trichotomy a.cat b.cat with h | h | h
  · exact Or.inl (Or.inl h)
  · rcases lt_trichotomy a.score b.score with hs | hs | hs
    · exact Or.inr (Or.inr ⟨h.symm, Or.inl hs⟩)
    · rcases Nat.le_total a.idx b.idx with hi | hi
      · exact Or.inl (Or.inr ⟨h, Or.inr ⟨hs, hi⟩⟩)
      · exact Or.inr (Or.inr ⟨h.symm, Or.inr ⟨hs.symm, hi⟩⟩)
    · exact Or.inl (Or.inr ⟨h, Or.inl hs⟩)
  · exact Or.inr (Or.inl h)

/-- The spec-side comparator is transitive. -/
theorem highLe_trans (a b c : SRow) (h1 : highLe a b) (h2 : highLe b c) :
    highLe a c := by
  rw [highLe_iff] at *
  omega

/-- The spec-side comparator is total. -/
theorem highLe_total (a b : SRow) : highLe a b || highLe b a := by
  rw [Bool.or_eq_true, highLe_iff, highLe_iff]
  omega

/-- The key order is antisymmetric: equal keys force equal rows. -/
theorem keyRel_antisymm : ∀ a b : SRow, keyRel a b → keyRel b a → a = b := by
  rintro ⟨ai, as, ac⟩ ⟨bi, bs, bc⟩ h1 h2
  unfold keyRel at h1 h2
  dsimp only at h1 h2
  have hss : as = bs := by
    rcases h1 with h | ⟨h, _⟩ <;> rcases h2 with h' | ⟨h', _⟩ <;> omega
  have hii : ai = bi := by
    rcases h1 with h | ⟨_, h | ⟨h, _⟩⟩ <;> rcases h2 with h' | ⟨_, h' | ⟨h', _⟩⟩ <;>
      omega
  have hcc : ac = bc := by
    rcases h1 with h | ⟨_, h | ⟨_, hc⟩⟩ <;> rcases h2 with h' | ⟨_, h' | ⟨_, hc'⟩⟩ <;>
      first
      | exact le_antisymm hc hc'
      | (exfalso; omega)
  subst hss
  subst hii
  subst hcc
  rfl

instance : IsAntisymm SRow keyRel := ⟨keyRel_antisymm⟩

/-- Filtering the `"High"` rows out of the pipeline's sorted frame equals
sorting the filtered rows by the spec-side order: the category key is constant
on the kept rows, so both presentations are sorted by the same strict key and
are permutations of each other. -/
theorem filter_high_mergeSort (l : List SRow) :
    (l.mergeSort pipelineLe).filter (fun r => r.cat == "High")
      = (l.filter (fun r => r.cat == "High")).mergeSort highLe := by
  have hperm : ((l.mergeSort pipelineLe).filter (fun r => r.cat == "High")).Perm
      ((l.filter (fun r => r.cat == "High")).mergeSort highLe) :=
    ((List.mergeSort_perm l pipelineLe).filter _).trans
      (List.mergeSort_perm _ highLe).symm
  have hcat : ∀ x : SRow, x ∈ (l.mergeSort pipelineLe).filter (fun r => r.cat == "High")
      → x.cat = "High" := by
    intro x hx
    simpa using List.of_mem_filter hx
  have hcat2 : ∀ x : SRow, x ∈ (l.filter (fun r => r.cat == "High")).mergeSort highLe
      → x.cat = "High" := by
    intro x hx
    have hx2 : x ∈ l.filter (fun r => r.cat == "High") :=
      (List.mergeSort_perm _ highLe).subset hx
    simpa using List.of_mem_filter hx2
  have hs1 : ((l.mergeSort pipelineLe).filter (fun r => r.cat == "High")).Pairwise keyRel := by
    have h0 : (l.mergeSort pipelineLe).Pairwise (fun a b => pipelineLe a b = true) :=
      List.sorted_mergeSort pipelineLe_trans pipelineLe_total l
    have h1 : ((l.mergeSort pipelineLe).filter (fun r => r.cat == "High")).Pairwise
        (fun a b => pipelineLe a b = true) :=
      h0.sublist (List.filter_sublist _)
    refine h1.imp_of_mem ?_
    intro a b ha hb hab
    have hac := hcat a ha
    have hbc := hcat b hb
    rw [pipelineLe_iff] at hab
    unfold keyRel
    rcases hab with h | ⟨_, h⟩
    · rw [hac, hbc] at h
      exact (lt_irrefl _ h).elim
    · rcases h with h | ⟨hs, hi⟩
      · exact Or.inl h
      · right
        refine ⟨hs, ?_⟩
        rcases Nat.lt_or_ge a.idx b.idx with h' | h'
        · exact Or.inl h'
        · exact Or.inr ⟨Nat.le_antisymm hi h', by rw [hac, hbc]⟩
  have hs2 : ((l.filter (fun r => r.cat == "High")).mergeSort highLe).Pairwise keyRel := by
    have h0 : ((l.filter (fun r => r.cat == "High")).mergeSort highLe).Pairwise
        (fun a b => highLe a b = true) :=
      List.sorted_mergeSort highLe_trans highLe_total _
    refine h0.imp_of_mem ?_
    intro a b ha hb hab
    have hac := hcat2 a ha
    have hbc := hcat2 b hb
    rw [highLe_iff] at hab
    unfold keyRel
    rcases hab with h | ⟨hs, hi⟩
    · exact Or.inl h
    · right
      refine ⟨hs, ?_⟩
      rcases Nat.lt_or_ge a.idx b.idx with h' | h'
      · exact Or.inl h'
      · exact Or.inr ⟨Nat.le_antisymm hi h', by rw [hac, hbc]⟩
  exact List.eq_of_perm_of_sorted hperm hs1 hs2

/-- C6: the top-N table is exactly the records whose `risk_category` is
"High", ordered by descending `risk_score` with ties broken by the original
frame position, truncated to 20. -/
theorem top_high_matches_spec (rows : List Row) :
    top_high rows = specTopHigh rows := by
  unfold top_high specTopHigh
  rw [filter_high_mergeSort]

end RiskApp
